import Mathlib

/-!
Verification of a C++ tuple library (src/Tuple.h): a shallow embedding of
the heterogeneous fixed-size tuple and of the operations the specification
describes, followed by theorems settling the specified properties.

A C++ element type is modelled as a `CType`: a carrier of values together
with the operations the tuple code invokes on it — its `operator==`
(`beq`) and, when the type is default-constructible, the value produced by
its no-argument constructor (`defaultVal`, `none` when the type has no
default constructor).

The C++ tuple stores, by multiple inheritance of `tuple_leaf<I, T>` bases,
one leaf per position `I` of the declared type sequence; the leaf bases
are keyed by the pair (position, type), so duplicate types at distinct
positions stay distinct.  The storage aggregate `tuple_impl` is modelled
as an indexed family over the leaf-position counter and the remaining type
list: `tuple_impl i Ts` holds one `tuple_leaf` per position `i, i+1, ...`;
the public `tuple Ts` starts the position counter at `0`
(`std::index_sequence_for<Ts...>`).

Compile-time failures of the C++ code (an out-of-range `Position` in
`tuple_element` / `get`) are modelled by `tuple_element` returning `none`:
the metafunction resolves to a type exactly when the recursion of its
partial specializations terminates at the head-type case.
-/

namespace CppTuple

/-- A C++ element type, as seen by the tuple code: a set of values
(`carrier`), the type's `operator==` (`beq`), and the result of its
no-argument constructor when it has one (`defaultVal`). -/
structure CType : Type 1 where
  carrier : Type
  beq : carrier → carrier → Bool
  defaultVal : Option carrier

/-- Model of `tuple_leaf<I, T>` from src/Tuple.h lines 10–34: the single
element holder storing the `I`-th element, of type `T`, in the member
`value`. -/
structure tuple_leaf (I : Nat) (T : CType) : Type 1 where
  value : T.carrier

/-- Model of `tuple_impl<std::index_sequence<Is...>, Ts...>` from
src/Tuple.h lines 42–58: the storage aggregate inheriting
`tuple_leaf<Is, Ts>...`, one leaf per position.  `tuple_impl i Ts` holds
the leaves at positions `i, i+1, ...` for the types in `Ts`, in order. -/
inductive tuple_impl : Nat → List CType → Type 1 where
  | nil : (i : Nat) → tuple_impl i []
  | cons : {i : Nat} → {T : CType} → {Ts : List CType} →
      tuple_leaf i T → tuple_impl (i + 1) Ts → tuple_impl i (T :: Ts)

/-- Model of `tuple<Ts...>` from src/Tuple.h lines 63–68: the public tuple
type, inheriting its storage (and constructors) from
`tuple_impl<std::index_sequence_for<Ts...>, Ts...>` — the position counter
starts at `0`. -/
def tuple (Ts : List CType) : Type 1 :=
  tuple_impl 0 Ts

/-- A constructor-argument pack for the type sequence `Ts`: one value per
declared type, in order.  Models the `Us&&... args` pack of the
`tuple_impl` constructor (src/Tuple.h line 50), with each argument already
converted to its slot's type. -/
inductive Args : List CType → Type 1 where
  | nil : Args []
  | cons : {T : CType} → {Ts : List CType} → T.carrier → Args Ts → Args (T :: Ts)

/-- Position `i` of an argument pack (the argument matched to slot `i`). -/
def Args.get : {Ts : List CType} → Args Ts → (i : Fin Ts.length) → (Ts.get i).carrier
  | _ :: _, .cons v _, ⟨0, _⟩ => v
  | _ :: _, .cons _ vs, ⟨i + 1, h⟩ => vs.get ⟨i, Nat.lt_of_succ_lt_succ h⟩

/-- The `tuple_impl` constructor of src/Tuple.h lines 49–51:
`tuple_impl(Us&&... args) : tuple_leaf<Is, Ts>(std::forward<Us>(args))...`
— argument `i` of the pack initializes the leaf at position `i`. -/
def tuple_impl.construct : {i : Nat} → {Ts : List CType} → Args Ts → tuple_impl i Ts
  | i, [], .nil => .nil i
  | _, _ :: _, .cons v vs => .cons ⟨v⟩ (tuple_impl.construct vs)

/-- Constructing a `tuple<Ts...>` from one value per declared type
(the inherited `tuple_impl` constructor, src/Tuple.h line 67). -/
def tuple.construct {Ts : List CType} (args : Args Ts) : tuple Ts :=
  tuple_impl.construct args

/-- The `tuple_impl` default constructor (src/Tuple.h line 47): each leaf
is default-constructed (src/Tuple.h line 17), which invokes its type's
no-argument constructor; defined only when every element type has one. -/
def tuple_impl.construct_default :
    (i : Nat) → (Ts : List CType) →
    (∀ T ∈ Ts, T.defaultVal.isSome = true) → tuple_impl i Ts
  | i, [], _ => .nil i
  | i, T :: Ts, h =>
      .cons ⟨T.defaultVal.get (h T (List.mem_cons_self T Ts))⟩
        (tuple_impl.construct_default (i + 1) Ts
          (fun U hU => h U (List.mem_cons_of_mem T hU)))

/-- Default construction of a `tuple<Ts...>` (src/Tuple.h lines 17, 47). -/
def tuple.construct_default (Ts : List CType)
    (h : ∀ T ∈ Ts, T.defaultVal.isSome = true) : tuple Ts :=
  tuple_impl.construct_default 0 Ts h

/-- Model of `tuple_element<I, Tuple>` from src/Tuple.h lines 72–82: the
metafunction resolving position `I` in the declared type sequence.
`tuple_element<0, tuple<T, Ts...>>` yields `T` (line 79);
`tuple_element<I, tuple<T, Ts...>>` recurses to
`tuple_element<I - 1, tuple<Ts...>>` (line 76); on an empty sequence no
specialization matches and the C++ program fails to compile — modelled by
`none`. -/
def tuple_element : Nat → List CType → Option CType
  | 0, T :: _ => some T
  | I + 1, _ :: Ts => tuple_element I Ts
  | _, [] => none

/-- Reading position `j` of the storage: `get<I>` (src/Tuple.h lines
86–90) casts the aggregate to its `tuple_leaf<I, tuple_element_t<I, ...>>`
base — the unique leaf at position `I` — and returns that leaf's `value`
(src/Tuple.h line 30). -/
def tuple_impl.get :
    {i : Nat} → {Ts : List CType} → tuple_impl i Ts →
    (j : Fin Ts.length) → (Ts.get j).carrier
  | _, _ :: _, .cons leaf _, ⟨0, _⟩ => leaf.value
  | _, _ :: _, .cons _ rest, ⟨j + 1, h⟩ => rest.get ⟨j, Nat.lt_of_succ_lt_succ h⟩

/-- Model of `get<I>(t)` for a `tuple<Ts...>` (src/Tuple.h lines 86–90).
Its result is the value of the slot at position `I`, typed as the declared
type at `I`. -/
def get {Ts : List CType} (I : Fin Ts.length) (t : tuple Ts) : (Ts.get I).carrier :=
  t.get I

/-- Assignment through the mutable reference returned by `get<I>(t)`
(src/Tuple.h lines 86–90 return `T&`; line 30): overwrites the `value`
member of the leaf at position `I`, leaving every other leaf untouched.
Modelled functionally as an update of slot `I`. -/
def tuple_impl.set :
    {i : Nat} → {Ts : List CType} → tuple_impl i Ts →
    (j : Fin Ts.length) → (Ts.get j).carrier → tuple_impl i Ts
  | _, _ :: _, .cons _ rest, ⟨0, _⟩, v => .cons ⟨v⟩ rest
  | _, _ :: _, .cons leaf rest, ⟨j + 1, h⟩, v =>
      .cons leaf (rest.set ⟨j, Nat.lt_of_succ_lt_succ h⟩ v)

/-- Writing value `v` to position `I` of a `tuple<Ts...>` through the
reference returned by `get<I>`. -/
def set {Ts : List CType} (I : Fin Ts.length) (v : (Ts.get I).carrier)
    (t : tuple Ts) : tuple Ts :=
  t.set I v

/-- Model of `tuple_size<tuple<Ts...>>` from src/Tuple.h lines 112–119:
`std::integral_constant<std::size_t, sizeof...(Ts)>` — the number of
declared types, a property of the type list alone (no tuple value is
taken). -/
def tuple_size (Ts : List CType) : Nat :=
  Ts.length

/-- Model of `tuple_equal_impl` from src/Tuple.h lines 132–136: the fold
`((get<Is>(a) == get<Is>(b)) && ...)` over all positions, where the
per-position comparison is the element type's own `operator==`; the empty
fold is `true`. -/
def tuple_equal_impl :
    {i : Nat} → {Ts : List CType} → tuple_impl i Ts → tuple_impl i Ts → Bool
  | _, [], _, _ => true
  | _, T :: _, .cons la ra, .cons lb rb =>
      T.beq la.value lb.value && tuple_equal_impl ra rb

/-- Model of `operator==` on tuples (src/Tuple.h lines 138–142): delegates
to `tuple_equal_impl` over `std::index_sequence_for<Ts...>`, i.e. over all
positions `0..N-1`. -/
def tuple_eq {Ts : List CType} (a b : tuple Ts) : Bool :=
  tuple_equal_impl a b

/-- The declared type sequence of a tuple value (the `Ts...` of its
type). -/
def typeSeq {Ts : List CType} (_ : tuple Ts) : List CType :=
  Ts

/-- A (possibly cv/ref-qualified) C++ argument type, as handed to
`make_tuple`'s forwarding-reference pack `Ts&&...`. -/
inductive QType : Type 1 where
  | base : CType → QType
  | constQ : QType → QType
  | volatileQ : QType → QType
  | lref : QType → QType
  | rref : QType → QType

/-- Model of `std::decay_t` as used by `make_tuple` (src/Tuple.h line
126): strips references and cv-qualifiers down to the underlying element
type.  (Over this grammar of cv/ref qualifiers on a base type — no
arrays, functions or pointers occur — `decay_t` is exactly the full
strip: it removes the reference, then all top-level cv-qualifiers, and
C++ ignores cv-qualification applied on top of a reference type.) -/
def decay : QType → CType
  | .base c => c
  | .constQ q => decay q
  | .volatileQ q => decay q
  | .lref q => decay q
  | .rref q => decay q

/-- An argument pack for `make_tuple`: one value per (qualified) argument
type.  A value of a cv/ref-qualified type is a value of its underlying
element type. -/
inductive QArgs : List QType → Type 1 where
  | nil : QArgs []
  | cons : {q : QType} → {qs : List QType} →
      (decay q).carrier → QArgs qs → QArgs (q :: qs)

/-- Forwarding the `make_tuple` pack into the tuple constructor
(`std::forward<Ts>(args)...`, src/Tuple.h line 127): each argument value
initializes the slot of its decayed type, unchanged. -/
def QArgs.forwarded : {qs : List QType} → QArgs qs → Args (qs.map decay)
  | _, .nil => .nil
  | _, .cons v vs => .cons v vs.forwarded

/-- Model of `make_tuple` from src/Tuple.h lines 123–128: builds a
`tuple<std::decay_t<Ts>...>` from the forwarded arguments. -/
def make_tuple {qs : List QType} (args : QArgs qs) : tuple (qs.map decay) :=
  tuple.construct args.forwarded

/-- The C++ `int`, with its `==` and its value-initialized default. -/
@[reducible] def intC : CType :=
  ⟨Int, fun a b => a == b, some 0⟩

/-- The C++ `char`, with its `==` and its value-initialized default. -/
@[reducible] def charC : CType :=
  ⟨Char, fun a b => a == b, some (Char.ofNat 0)⟩

/-- The C++ `double`, modelled with an exact carrier (the demonstration
program only stores and compares doubles, so only `==` matters here). -/
@[reducible] def doubleC : CType :=
  ⟨Rat, fun a b => a == b, some 0⟩

/-- The value 3.14 of the demonstration program (src/main.cpp line 7). -/
@[reducible] def r314 : Rat :=
  Rat.mk' 157 50 (by decide) (by decide)

/-- The value 20.5 of the demonstration program (src/main.cpp line 13). -/
@[reducible] def r205 : Rat :=
  Rat.mk' 41 2 (by decide) (by decide)

/-- The tuple `t{42, 3.14, 'a'}` of the demonstration program
(src/main.cpp line 7). -/
def demoTuple : tuple [intC, doubleC, charC] :=
  tuple.construct (.cons (42 : Int) (.cons r314 (.cons 'a' .nil)))

/-- The tuple `t2 = make_tuple(10, 20.5, 'x')` of the demonstration
program (src/main.cpp line 13). -/
def demoTuple2 : tuple [intC, doubleC, charC] :=
  tuple.construct (.cons (10 : Int) (.cons r205 (.cons 'x' .nil)))

/-- A tuple with the same element type at two positions, to exercise the
duplicate-type cases. -/
def demoPair : tuple [intC, intC] :=
  tuple.construct (.cons (1 : Int) (.cons (2 : Int) .nil))

/-- The qualified argument types `int&&`, `const double&`, `char` of a
`make_tuple` call. -/
@[reducible] def demoQs : List QType :=
  [.rref (.base intC), .lref (.constQ (.base doubleC)), .base charC]

/-- The argument values `10`, `20.5`, `'x'` for that `make_tuple` call
(src/main.cpp line 13). -/
def demoQArgs : QArgs demoQs :=
  .cons (10 : Int) (.cons r205 (.cons 'x' .nil))

/-! Helper lemmas about the storage aggregate, shared by the main
theorems below. -/

/-- Reading slot `j` of a freshly constructed aggregate returns argument
`j` of the pack. -/
theorem tuple_impl.construct_get :
    {i : Nat} → {Ts : List CType} → (args : Args Ts) → (j : Fin Ts.length) →
    (tuple_impl.construct (i := i) args).get j = args.get j
  | _, _, .nil, j => j.elim0
  | _, _ :: _, .cons _ _, ⟨0, _⟩ => rfl
  | _, _ :: _, .cons _ vs, ⟨k + 1, h⟩ =>
      tuple_impl.construct_get vs ⟨k, Nat.lt_of_succ_lt_succ h⟩

/-- Reading back the slot just written returns the written value. -/
theorem tuple_impl.set_get_same :
    {i : Nat} → {Ts : List CType} → (t : tuple_impl i Ts) → (j : Fin Ts.length) →
    (v : (Ts.get j).carrier) → (t.set j v).get j = v
  | _, _, .nil _, j, _ => j.elim0
  | _, _ :: _, .cons _ _, ⟨0, _⟩, _ => rfl
  | _, _ :: _, .cons _ rest, ⟨k + 1, h⟩, v =>
      tuple_impl.set_get_same rest ⟨k, Nat.lt_of_succ_lt_succ h⟩ v

/-- Writing one slot leaves every other slot unchanged. -/
theorem tuple_impl.set_get_of_ne :
    {i : Nat} → {Ts : List CType} → (t : tuple_impl i Ts) → (j k : Fin Ts.length) →
    (v : (Ts.get j).carrier) → j.val ≠ k.val → (t.set j v).get k = t.get k
  | _, _, .nil _, j, _, _, _ => j.elim0
  | _, _ :: _, .cons _ _, ⟨0, _⟩, ⟨0, _⟩, _, hne => absurd rfl hne
  | _, _ :: _, .cons _ _, ⟨0, _⟩, ⟨_ + 1, _⟩, _, _ => rfl
  | _, _ :: _, .cons _ _, ⟨_ + 1, _⟩, ⟨0, _⟩, _, _ => rfl
  | _, _ :: _, .cons _leaf rest, ⟨j + 1, hj⟩, ⟨k + 1, hk⟩, v, hne =>
      tuple_impl.set_get_of_ne rest ⟨j, Nat.lt_of_succ_lt_succ hj⟩
        ⟨k, Nat.lt_of_succ_lt_succ hk⟩ v
        (fun h => hne (congrArg Nat.succ h))

/-- Every slot of a default-constructed aggregate holds its type's
default value. -/
theorem tuple_impl.construct_default_get :
    {i : Nat} → (Ts : List CType) → (h : ∀ T ∈ Ts, T.defaultVal.isSome = true) →
    (j : Fin Ts.length) →
    some ((tuple_impl.construct_default i Ts h).get j) = (Ts.get j).defaultVal
  | _, [], _, j => j.elim0
  | _, _ :: _, _, ⟨0, _⟩ => Option.some_get _
  | _, T :: Ts, h, ⟨k + 1, hk⟩ =>
      tuple_impl.construct_default_get Ts
        (fun U hU => h U (List.mem_cons_of_mem T hU))
        ⟨k, Nat.lt_of_succ_lt_succ hk⟩

/-- The fold computed by `tuple_equal_impl` is `true` exactly when every
position compares equal under its element type's `operator==`. -/
theorem tuple_equal_impl_eq_true_iff :
    {i : Nat} → {Ts : List CType} → (a b : tuple_impl i Ts) →
    (tuple_equal_impl a b = true ↔
      ∀ j : Fin Ts.length, (Ts.get j).beq (a.get j) (b.get j) = true)
  | _, [], .nil _, .nil _ => by
      constructor
      · intro _ j; exact j.elim0
      · intro _; rfl
  | _, T :: Ts, .cons la ra, .cons lb rb => by
      have ih := tuple_equal_impl_eq_true_iff ra rb
      constructor
      · intro h j
        have h1 : T.beq la.value lb.value = true ∧ tuple_equal_impl ra rb = true := by
          simpa [tuple_equal_impl, Bool.and_eq_true] using h
        match j with
        | ⟨0, _⟩ => exact h1.1
        | ⟨k + 1, hk⟩ => exact ih.mp h1.2 ⟨k, Nat.lt_of_succ_lt_succ hk⟩
      · intro h
        simp only [tuple_equal_impl, Bool.and_eq_true]
        exact ⟨h ⟨0, Nat.succ_pos _⟩,
          ih.mpr fun k => h ⟨k.val + 1, Nat.succ_lt_succ k.isLt⟩⟩

/-- An in-range position resolves, through `tuple_element`, to the
declared type at that position. -/
theorem tuple_element_at :
    {Ts : List CType} → (j : Fin Ts.length) → tuple_element j.val Ts = some (Ts.get j)
  | [], j => j.elim0
  | _ :: _, ⟨0, _⟩ => rfl
  | _ :: _, ⟨k + 1, h⟩ => tuple_element_at ⟨k, Nat.lt_of_succ_lt_succ h⟩

/-! Main theorems: one per specified claim. -/

/-- C1.  Positional fidelity: for every type sequence and every position
`i`, constructing a tuple from a pack of values (argument `i`
initializing the slot at position `i`) and then reading position `i` with
`get` returns the value that was argument `i` — for arbitrary type
sequences, so in particular when two positions share the same element
type, since slots are keyed by position. -/
theorem claim1_positional_fidelity (Ts : List CType) (args : Args Ts)
    (i : Fin Ts.length) : get i (tuple.construct args) = args.get i :=
  tuple_impl.construct_get args i

/-- C2.  Structural equality as conjunction: `a == b` is `true` iff every
position of `a` and `b` compares equal under its element type's own
`operator==`; changing any single position of `a` to a value that does
not compare equal to `b`'s (while all other positions match) makes the
tuples unequal; and two empty tuples are vacuously equal. -/
theorem claim2_structural_equality (Ts : List CType) (a b : tuple Ts) :
    (tuple_eq a b = true ↔
      ∀ i : Fin Ts.length, (Ts.get i).beq (get i a) (get i b) = true)
    ∧ (∀ (i : Fin Ts.length) (v : (Ts.get i).carrier),
        (∀ j : Fin Ts.length, j ≠ i → (Ts.get j).beq (get j a) (get j b) = true) →
        (Ts.get i).beq v (get i b) = false →
        tuple_eq (set i v a) b = false)
    ∧ (Ts = [] → tuple_eq a b = true) := by
  refine ⟨tuple_equal_impl_eq_true_iff a b, ?_, ?_⟩
  · intro i v _ hbad
    rw [Bool.eq_false_iff]
    intro htrue
    have := (tuple_equal_impl_eq_true_iff (tuple_impl.set a i v) b).mp htrue i
    rw [show (tuple_impl.set a i v).get i = v from tuple_impl.set_get_same a i v] at this
    exact absurd this (Bool.eq_false_iff.mp hbad)
  · intro hTs
    subst hTs
    match a, b with
    | .nil _, .nil _ => rfl

/-- C3.  Out-of-range access is rejected before runtime: the
`tuple_element` metafunction resolves to no type (the C++ instantiation
fails to compile) exactly when the requested position is not below the
arity; equivalently it resolves to a type exactly for positions in
`[0, N)`, so no out-of-range access produces a value. -/
theorem claim3_out_of_range_rejected (I : Nat) (Ts : List CType) :
    tuple_element I Ts = none ↔ tuple_size Ts ≤ I := by
  induction Ts generalizing I with
  | nil => cases I <;> simp [tuple_element, tuple_size]
  | cons T Ts ih =>
    cases I with
    | zero => simp [tuple_element, tuple_size]
    | succ k =>
      simpa [tuple_element, tuple_size, Nat.succ_le_succ_iff] using ih k

/-- C4.  Element-type correctness: for every declared type sequence and
every in-range position `i`, the `tuple_element` metafunction (the
structural recursion stripping one leading type per decrement of the
position) resolves to exactly the `i`-th declared type — for arbitrary
type sequences, hence also when duplicate types appear at different
positions; `get` at `i` is typed by that same declared type. -/
theorem claim4_element_type_correct (Ts : List CType) (i : Fin Ts.length) :
    tuple_element i.val Ts = some (Ts.get i)
    ∧ ∀ t : tuple Ts, get i t = t.get i :=
  ⟨tuple_element_at i, fun _ => rfl⟩

/-- C5.  Size correctness: for a tuple declared over `K` element types,
`tuple_size` is exactly `K` — for `K = 0`, `K = 1` and `K > 1` — and it
is a function of the type list alone (its definition takes no tuple
value). -/
theorem claim5_size_correct :
    (tuple_size [] = 0)
    ∧ (∀ T : CType, tuple_size [T] = 1)
    ∧ (∀ (T U : CType) (Ts : List CType),
        tuple_size (T :: U :: Ts) = Ts.length + 2)
    ∧ (∀ Ts : List CType, tuple_size Ts = Ts.length) :=
  ⟨rfl, fun _ => rfl, fun _ _ _ => rfl, fun _ => rfl⟩

/-- C6.  Construction inference: `make_tuple` builds a tuple whose
declared type sequence is the decay (reference/const/volatile strip) of
each argument type, in argument order; its element at each position is
the corresponding forwarded argument; and the decayed type of an
argument is independent of any reference or cv qualifiers on it. -/
theorem claim6_make_tuple_inference (qs : List QType) (args : QArgs qs) :
    typeSeq (make_tuple args) = qs.map decay
    ∧ (∀ i : Fin (qs.map decay).length,
        get i (make_tuple args) = args.forwarded.get i)
    ∧ (∀ q : QType, decay (.constQ q) = decay q ∧ decay (.volatileQ q) = decay q
        ∧ decay (.lref q) = decay q ∧ decay (.rref q) = decay q) :=
  ⟨rfl, fun i => tuple_impl.construct_get args.forwarded i,
    fun _ => ⟨rfl, rfl, rfl, rfl⟩⟩

/-- C7.  Mutation through the accessor: writing value `v` at position `i`
through the mutable reference returned by `get<i>` updates the stored
value, so that a subsequent `get<i>` returns `v`. -/
theorem claim7_mutation_through_accessor (Ts : List CType) (t : tuple Ts)
    (i : Fin Ts.length) (v : (Ts.get i).carrier) :
    get i (set i v t) = v :=
  tuple_impl.set_get_same t i v

/-- C8.  Equality reflexivity: every tuple value equals itself under
`operator==`, for element types whose own equality is reflexive. -/
theorem claim8_equality_reflexive (Ts : List CType) (t : tuple Ts)
    (h : ∀ T ∈ Ts, ∀ x : T.carrier, T.beq x x = true) :
    tuple_eq t t = true :=
  (tuple_equal_impl_eq_true_iff t t).mpr
    (fun i => h (Ts.get i) (Ts.get_mem i i.isLt) (t.get i))

/-- C9.  Default construction: when every declared element type has a
no-argument default, default-constructing a tuple yields, at every
position, the default value of the declared type at that position. -/
theorem claim9_default_construction (Ts : List CType)
    (h : ∀ T ∈ Ts, T.defaultVal.isSome = true) (i : Fin Ts.length) :
    some (get i (tuple.construct_default Ts h)) = (Ts.get i).defaultVal :=
  tuple_impl.construct_default_get Ts h i

/-- C10.  Frame property of positional writes: for distinct positions
`i ≠ j`, writing through `get<i>` leaves the value read by `get<j>`
unchanged — each position's storage is an independent slot, also when
both positions hold the same element type (the statement is for arbitrary
type sequences). -/
theorem claim10_write_frame (Ts : List CType) (t : tuple Ts)
    (i j : Fin Ts.length) (v : (Ts.get i).carrier) (h : i ≠ j) :
    get j (set i v t) = get j t :=
  tuple_impl.set_get_of_ne t i j v (fun hv => h (Fin.ext hv))

/-- Witness for C2: overwriting position 0 of the demonstration tuple
`(42, 3.14, 'a')` with `99` (which does not compare equal to `42`) while
the other positions still match makes the tuples compare unequal. -/
theorem claim2_structural_equality_witness :
    tuple_eq (@set [intC, doubleC, charC] ⟨0, Nat.succ_pos 2⟩ (99 : Int) demoTuple)
      demoTuple = false :=
  (claim2_structural_equality _ demoTuple demoTuple).2.1 ⟨0, Nat.succ_pos 2⟩ (99 : Int)
    (by decide) (by decide)

/-- Witness for C8: the demonstration tuple `(42, 3.14, 'a')` equals
itself; the element types `int`, `double` (exact model) and `char` all
have reflexive equality. -/
theorem claim8_equality_reflexive_witness : tuple_eq demoTuple demoTuple = true :=
  claim8_equality_reflexive _ demoTuple (by
    intro T hT x
    fin_cases hT <;> exact beq_self_eq_true x)

/-- Witness for C9: default-constructing a tuple over `(int, char)` (both
default-constructible) yields the `int` default `0` at position 0. -/
theorem claim9_default_construction_witness :
    some (@get [intC, charC] ⟨0, Nat.succ_pos 1⟩
        (tuple.construct_default [intC, charC] (by decide)))
      = some (0 : Int) :=
  claim9_default_construction [intC, charC] (by decide) ⟨0, Nat.succ_pos 1⟩

/-- Witness for C10: on a tuple holding the same type `int` at both
positions, writing `99` at position 0 leaves the read at position 1
unchanged. -/
theorem claim10_write_frame_witness :
    @get [intC, intC] ⟨1, Nat.lt_succ_self 1⟩
        (@set [intC, intC] ⟨0, Nat.succ_pos 1⟩ (99 : Int) demoPair)
      = @get [intC, intC] ⟨1, Nat.lt_succ_self 1⟩ demoPair :=
  claim10_write_frame _ demoPair ⟨0, Nat.succ_pos 1⟩ ⟨1, Nat.lt_succ_self 1⟩ (99 : Int)
    (by decide)

/-- The concrete scenario of the demonstration program (src/main.cpp):
`t = (42, 3.14, 'a')` reads back `42`, `3.14`, `'a'`; the arity is 3; and
`t` compares unequal to `t2 = make_tuple(10, 20.5, 'x')` since
`42 != 10`. -/
theorem demo_scenario :
    @get [intC, doubleC, charC] ⟨0, Nat.succ_pos 2⟩ demoTuple = (42 : Int)
    ∧ @get [intC, doubleC, charC] ⟨1, Nat.lt_of_sub_eq_succ rfl⟩ demoTuple = r314
    ∧ @get [intC, doubleC, charC] ⟨2, Nat.lt_succ_self 2⟩ demoTuple = 'a'
    ∧ tuple_size [intC, doubleC, charC] = 3
    ∧ tuple_eq demoTuple demoTuple2 = false :=
  ⟨rfl, rfl, rfl, rfl, by decide⟩

/-- Evaluation of `make_tuple` on arguments with the qualified types
`int&&`, `const double&`, `char`: the declared sequence is exactly
`(int, double, char)` and the element at position 0 is the argument. -/
theorem demo_make_tuple :
    typeSeq (make_tuple demoQArgs) = [intC, doubleC, charC]
    ∧ @get (demoQs.map decay) ⟨0, Nat.succ_pos 2⟩ (make_tuple demoQArgs) = (10 : Int) :=
  ⟨rfl, rfl⟩

/-- Evaluation of `tuple_element` on the demonstration type sequence,
in range and out of range. -/
theorem demo_tuple_element :
    tuple_element 1 [intC, doubleC, charC] = some doubleC
    ∧ tuple_element 3 [intC, doubleC, charC] = none :=
  ⟨rfl, rfl⟩

end CppTuple
